import Mathlib

/-!
Verification of the SGTU event platform core: the one-time school-ranking
transaction, the feedback gate, the attendance toggle, and the two QR-token
schemes.  The definitions below are a shallow embedding of the JavaScript
controllers (student controller: submitSchoolRanking, submitFeedback,
scanStall) over an explicit relational state `DB`; SQL statements are
translated under PostgreSQL semantics (in particular, every expression in an
UPDATE's SET clause reads the old row).  Parts of the system whose bodies are
not in the repository snapshot (QRCodeService, Student.processCheckInOut) are
modelled from the specification and marked as such in their doc comments.
-/

namespace SGTU

/-- A row of the students table (the fields the verified operations touch).
`feedbacks_given` is the stored counter Student.incrementFeedbackCount bumps. -/
structure StudentRow where
  id : Nat
  school_id : Nat
  is_inside_event : Bool
  has_completed_ranking : Bool
  selected_category : Option String
  feedbacks_given : Nat
  deriving Repr, DecidableEq

/-- A row of the stalls table: vote tallies, the derived weighted score and
the feedback counter, plus the stored QR token string. -/
structure StallRow where
  id : Nat
  school_id : Nat
  qr_code_token : String
  rank_1_votes : Nat
  rank_2_votes : Nat
  rank_3_votes : Nat
  weighted_score : Nat
  total_feedback_count : Nat
  deriving Repr, DecidableEq

/-- A row of the feedbacks table. -/
structure FeedbackRow where
  student_id : Nat
  stall_id : Nat
  rating : Int
  comment : Option String
  deriving Repr, DecidableEq

/-- A row of the rankings table. -/
structure RankingRow where
  student_id : Nat
  stall_id : Nat
  rank : Nat
  deriving Repr, DecidableEq

/-- The persisted store: the four tables the verified operations read and
write. -/
structure DB where
  students : List StudentRow
  stalls : List StallRow
  feedbacks : List FeedbackRow
  rankings : List RankingRow
  deriving Repr, DecidableEq

/-- Student.findById. -/
def findStudentById (db : DB) (sid : Nat) : Option StudentRow :=
  db.students.find? (fun s => s.id == sid)

/-- Stall.findById. -/
def findStallById (db : DB) (stid : Nat) : Option StallRow :=
  db.stalls.find? (fun s => s.id == stid)

/-- Stall.findByQRToken: lookup of a stall row by its stored token string. -/
def findStallByQRToken (db : DB) (t : String) : Option StallRow :=
  db.stalls.find? (fun s => s.qr_code_token == t)

/-- Feedback.findByStudentAndStall. -/
def findFeedback (db : DB) (sid stid : Nat) : Option FeedbackRow :=
  db.feedbacks.find? (fun f => f.student_id == sid && f.stall_id == stid)

/-- Feedback.countByStudent: the number of feedback rows of one student. -/
def countByStudent (db : DB) (sid : Nat) : Nat :=
  (db.feedbacks.filter (fun f => f.student_id == sid)).length

/-- Insertion sort on naturals, standing for the `.sort()` the controller
applies to the three submitted ranks before comparing with `1,2,3`. -/
def insertNat (x : Nat) : List Nat → List Nat
  | [] => [x]
  | y :: ys => if x ≤ y then x :: y :: ys else y :: insertNat x ys

/-- The sorted list of a list of naturals. -/
def sortNat : List Nat → List Nat
  | [] => []
  | x :: xs => insertNat x (sortNat xs)

/-- The distinct elements of a list, as `new Set(stallIds)` collects them;
only its length is used. -/
def dedupNat : List Nat → List Nat
  | [] => []
  | x :: xs => if x ∈ xs then dedupNat xs else x :: dedupNat xs

/-- The typed failures of submitSchoolRanking, one per early return of the
controller, in source order. -/
inductive RankingError where
  | NotThreeRankings
  | InvalidRankSet
  | DuplicateStall
  | StudentNotFound
  | AlreadySubmitted
  | StallNotFound
  | CrossSchoolStall
  deriving Repr, DecidableEq

/-- A ranking submission request: the authenticated student and the
`rankings` array of (stall_id, rank) pairs. -/
structure RankRequest where
  student_id : Nat
  rankings : List (Nat × Nat)
  deriving Repr, DecidableEq

/-- The three structural checks submitSchoolRanking performs on the request
body alone: exactly 3 entries, ranks sorting to 1,2,3, stall ids pairwise
distinct. -/
def checkRanks (req : RankRequest) : Option RankingError :=
  if req.rankings.length ≠ 3 then some RankingError.NotThreeRankings
  else if sortNat (req.rankings.map Prod.snd) ≠ [1, 2, 3] then
    some RankingError.InvalidRankSet
  else if (dedupNat (req.rankings.map Prod.fst)).length ≠ 3 then
    some RankingError.DuplicateStall
  else none

/-- The stalls the request names, in request order, as the `ANY($1)` lookup
returns them: the found rows only. -/
def stallsToRank (req : RankRequest) (db : DB) : List StallRow :=
  (req.rankings.map Prod.fst).filterMap (findStallById db)

/-- Everything submitSchoolRanking checks before `BEGIN`: the structural
checks, the student lookup, the has_completed_ranking flag, the existence of
all three stalls and the own-school rule.  All of these are reads; none of
them is inside the transaction. -/
def submitSchoolRankingValidate (req : RankRequest) (db : DB) :
    Option RankingError :=
  match checkRanks req with
  | some e => some e
  | none =>
    match findStudentById db req.student_id with
    | none => some RankingError.StudentNotFound
    | some stu =>
      if stu.has_completed_ranking then some RankingError.AlreadySubmitted
      else if (stallsToRank req db).length ≠ 3 then
        some RankingError.StallNotFound
      else if (stallsToRank req db).any (fun s => s.school_id != stu.school_id) then
        some RankingError.CrossSchoolStall
      else none

/-- Ranking.bulkCreate: insert the three ranking rows. -/
def insertRankings (req : RankRequest) (db : DB) : DB :=
  { db with
    rankings := db.rankings ++
      req.rankings.map (fun p => RankingRow.mk req.student_id p.1 p.2) }

/-- The UPDATE setting has_completed_ranking = true and
selected_category = CATEGORY_2 on the submitting student. -/
def setCompletedRanking (sid : Nat) (db : DB) : DB :=
  { db with
    students := db.students.map (fun s =>
      if s.id == sid then
        { s with has_completed_ranking := true,
                 selected_category := some "CATEGORY_2" }
      else s) }

/-- The per-stall vote UPDATE's effect on one row.  The rank picks the
column exactly as the controller's ternary does (1, 2, anything else 3).
PostgreSQL evaluates every SET expression against the OLD row, so the
`weighted_score` the statement stores is computed from the counters as they
were BEFORE this increment — this is the source's actual semantics, not a
simplification. -/
def applyVoteUpdate (rank : Nat) (s : StallRow) : StallRow :=
  { s with
    rank_1_votes := if rank = 1 then s.rank_1_votes + 1 else s.rank_1_votes,
    rank_2_votes := if rank = 2 then s.rank_2_votes + 1 else s.rank_2_votes,
    rank_3_votes := if rank ≠ 1 ∧ rank ≠ 2 then s.rank_3_votes + 1
                    else s.rank_3_votes,
    weighted_score :=
      s.rank_1_votes * 5 + s.rank_2_votes * 3 + s.rank_3_votes * 1 }

/-- The UPDATE on the stalls table for one (stall_id, rank) pair. -/
def updateStallVotes (stid rank : Nat) (db : DB) : DB :=
  { db with
    stalls := db.stalls.map (fun s =>
      if s.id == stid then applyVoteUpdate rank s else s) }

/-- The write statements between BEGIN and COMMIT, in source order: the bulk
insert, the student flag update, and one vote update per ranked stall. -/
def txnWrites (req : RankRequest) : List (DB → DB) :=
  [insertRankings req, setCompletedRanking req.student_id] ++
    req.rankings.map (fun p => updateStallVotes p.1 p.2)

/-- Sequential application of a list of write statements. -/
def applyWrites (ws : List (DB → DB)) (db : DB) : DB :=
  ws.foldl (fun d f => f d) db

/-- The committed effect of the ranking transaction: all writes applied. -/
def submitRankingTxn (req : RankRequest) (db : DB) : DB :=
  applyWrites (txnWrites req) db

/-- submitSchoolRanking, sequential semantics: validate (reads only), then
run the transaction; an error leaves the store untouched. -/
def submitSchoolRanking (req : RankRequest) (db : DB) :
    (RankingError ⊕ Unit) × DB :=
  match submitSchoolRankingValidate req db with
  | some e => (Sum.inl e, db)
  | none => (Sum.inr (), submitRankingTxn req db)

/-- Outcome of a ranking request under the fault model. -/
inductive TxnOutcome where
  | rejected (e : RankingError)
  | rolledBack
  | committed
  deriving Repr, DecidableEq

/-- submitSchoolRanking under a fault model: `k` is the number of write
statements that execute before the request dies.  All writes sit between
BEGIN and COMMIT and the catch handler issues ROLLBACK, so a fault before
the final write (k < length) restores the pre-transaction snapshot; only a
request that reaches COMMIT publishes its writes. -/
def submitSchoolRankingFaulty (req : RankRequest) (db : DB) (k : Nat) :
    TxnOutcome × DB :=
  match submitSchoolRankingValidate req db with
  | some e => (TxnOutcome.rejected e, db)
  | none =>
    if k < (txnWrites req).length then (TxnOutcome.rolledBack, db)
    else (TxnOutcome.committed, submitRankingTxn req db)

/-- The typed failures of submitFeedback, one per early return of the
controller, in source order.  `ValidationRequired` is the
`Stall ID and rating are required` 400. -/
inductive FeedbackError where
  | ValidationRequired
  | OutOfRange
  | StudentNotFound
  | NotCheckedIn
  | QuotaExceeded
  | StallNotFound
  | AlreadyReviewed
  deriving Repr, DecidableEq

/-- A feedback request: the authenticated student and the request body.
`stall_id` and `rating` are optional because the controller starts with a
JavaScript falsiness check on both (`!stall_id || !rating`), under which an
absent field and the number 0 are the same thing; `Option.getD 0 = 0`
captures exactly that falsiness. -/
structure FeedbackRequest where
  student_id : Nat
  stall_id : Option Nat
  rating : Option Int
  comment : Option String
  deriving Repr, DecidableEq

/-- Everything submitFeedback checks before its first write, in source
order: presence of stall_id and rating, the 1..5 range, the student lookup,
is_inside_event, the 200-feedback quota, the stall lookup and the
one-review-per-stall rule. -/
def submitFeedbackValidate (req : FeedbackRequest) (db : DB) :
    Option FeedbackError :=
  if req.stall_id.getD 0 = 0 ∨ req.rating.getD 0 = 0 then
    some FeedbackError.ValidationRequired
  else if req.rating.getD 0 < 1 ∨ 5 < req.rating.getD 0 then
    some FeedbackError.OutOfRange
  else
    match findStudentById db req.student_id with
    | none => some FeedbackError.StudentNotFound
    | some stu =>
      if !stu.is_inside_event then some FeedbackError.NotCheckedIn
      else if 200 ≤ countByStudent db req.student_id then
        some FeedbackError.QuotaExceeded
      else
        match findStallById db (req.stall_id.getD 0) with
        | none => some FeedbackError.StallNotFound
        | some _ =>
          match findFeedback db req.student_id (req.stall_id.getD 0) with
          | some _ => some FeedbackError.AlreadyReviewed
          | none => none

/-- The feedback row Feedback.create inserts for a validated request. -/
def feedbackRowOf (req : FeedbackRequest) : FeedbackRow :=
  { student_id := req.student_id,
    stall_id := req.stall_id.getD 0,
    rating := req.rating.getD 0,
    comment := req.comment }

/-- Feedback.create: append the new row to the feedbacks table. -/
def insertFeedback (row : FeedbackRow) (db : DB) : DB :=
  { db with feedbacks := db.feedbacks ++ [row] }

/-- Student.incrementFeedbackCount. -/
def incStudentFeedbackCount (sid : Nat) (db : DB) : DB :=
  { db with
    students := db.students.map (fun s =>
      if s.id == sid then { s with feedbacks_given := s.feedbacks_given + 1 }
      else s) }

/-- The UPDATE bumping stalls.total_feedback_count. -/
def incStallFeedbackCount (stid : Nat) (db : DB) : DB :=
  { db with
    stalls := db.stalls.map (fun s =>
      if s.id == stid then
        { s with total_feedback_count := s.total_feedback_count + 1 }
      else s) }

/-- The three write statements of submitFeedback's success path, in source
order.  Unlike the ranking submission, the controller issues them as three
separate statements with no BEGIN/COMMIT around them. -/
def feedbackWrites (req : FeedbackRequest) : List (DB → DB) :=
  [insertFeedback (feedbackRowOf req),
   incStudentFeedbackCount req.student_id,
   incStallFeedbackCount (req.stall_id.getD 0)]

/-- submitFeedback, sequential semantics: validate, then apply the three
writes, returning the created row. -/
def submitFeedback (req : FeedbackRequest) (db : DB) :
    (FeedbackError ⊕ FeedbackRow) × DB :=
  match submitFeedbackValidate req db with
  | some e => (Sum.inl e, db)
  | none => (Sum.inr (feedbackRowOf req), applyWrites (feedbackWrites req) db)

/-- submitFeedback under the same fault model as the ranking transaction:
`k` is the number of write statements that execute before the request dies.
Because the three statements are not wrapped in a transaction, each one
commits on its own, so a fault after the first `k` statements leaves exactly
those `k` writes in the store. -/
def submitFeedbackFaulty (req : FeedbackRequest) (db : DB) (k : Nat) : DB :=
  match submitFeedbackValidate req db with
  | some _ => db
  | none => applyWrites ((feedbackWrites req).take k) db

/-- Direction of an attendance scan. -/
inductive Direction where
  | ENTRY
  | EXIT
  deriving Repr, DecidableEq

/-- The direction the volunteer scan records, from the corrected scan logic
in the source: `student.is_inside_event ? EXIT : ENTRY`. -/
def scanAction (inside : Bool) : Direction :=
  if inside then Direction.EXIT else Direction.ENTRY

/-- Modelled from the spec: the body of Student.processCheckInOut is not in
the repository snapshot (only its caller is); per the spec's attendance
algorithm the scan flips is_inside_event — false becomes true on ENTRY, true
becomes false on EXIT. -/
def processCheckInOut (inside : Bool) : Bool := !inside

/-- One volunteer scan of a student: the recorded direction and the
student's new is_inside_event flag. -/
def scanStudentQR (inside : Bool) : Direction × Bool :=
  (scanAction inside, processCheckInOut inside)

/-- The directions recorded by `n` consecutive scans of the same student
with no intervening state reset, starting from flag `b`. -/
def scanDirections : Nat → Bool → List Direction
  | 0, _ => []
  | n + 1, b => scanAction b :: scanDirections n (processCheckInOut b)

/-- The participant-token rotation interval in seconds.  Modelled from the
spec: QRCodeService's body is not in the repository snapshot; its callers
read QRCodeService.ROTATION_INTERVAL_SECONDS and the spec fixes the interval
(e.g. every 30 seconds). -/
def ROTATION_INTERVAL_SECONDS : Nat := 30

/-- The number of prior rotation windows verification still accepts.
Modelled from the spec: configurable, default small (1 to 2 windows). -/
def GRACE_PERIOD_WINDOWS : Nat := 2

/-- The rotation window a timestamp falls in:
`floor(now / ROTATION_INTERVAL)`. -/
def windowOf (now : Nat) : Nat := now / ROTATION_INTERVAL_SECONDS

/-- The decoded identity claim a rotating student token carries:
the natural key, the window it was issued in, a nonce and the signature.
Modelled from the spec: QRCodeService's JWT payload is
nonce + type + registration_no, signed with the process-wide secret. -/
structure StudentToken where
  registration_no : String
  issued_window : Nat
  nonce : Nat
  mac : Nat
  deriving Repr, DecidableEq

/-- The signature over a token payload with the process-wide secret.
Modelled from the spec: any concrete keyed function of the payload serves
the embedding, since verification recomputes it with the same secret. -/
def macOf (secret : Nat) (reg : String) (w nonce : Nat) : Nat :=
  (reg.foldl (fun a c => a * 131 + c.toNat) secret) * 1009 + w * 31 + nonce

/-- Modelled from the spec: QRCodeService.generateRotatingStudentToken —
embed the natural key and the current window, sign with the secret. -/
def generateRotatingStudentToken (secret : Nat) (reg : String) (nonce now : Nat) :
    StudentToken :=
  { registration_no := reg,
    issued_window := windowOf now,
    nonce := nonce,
    mac := macOf secret reg (windowOf now) nonce }

/-- The token verifier's typed failures, per the spec's TokenError taxonomy. -/
inductive TokenError where
  | BadSignature
  | FutureWindow
  | Expired
  deriving Repr, DecidableEq

/-- Modelled from the spec: QRCodeService.verifyStudentQRToken — check the
signature, reject windows from the verifier's future, accept an embedded
window within GRACE_PERIOD_WINDOWS prior windows, and return the embedded
natural key. -/
def verifyStudentQRToken (secret : Nat) (t : StudentToken) (now : Nat) :
    TokenError ⊕ String :=
  if t.mac ≠ macOf secret t.registration_no t.issued_window t.nonce then
    Sum.inl TokenError.BadSignature
  else if windowOf now < t.issued_window then Sum.inl TokenError.FutureWindow
  else if t.issued_window + GRACE_PERIOD_WINDOWS < windowOf now then
    Sum.inl TokenError.Expired
  else Sum.inr t.registration_no

/-- Stall token generation, from the Excel-import pattern in the source:
the plain string `STALL_` + stall number + `_` + epoch milliseconds + `_` +
a six-character random suffix.  It takes no secret and carries no
signature. -/
def generateStallQRToken (stall_number : String) (epoch_ms : Nat)
    (random6 : String) : String :=
  "STALL_" ++ (stall_number ++ ("_" ++ (Nat.repr epoch_ms ++ ("_" ++ random6))))

/-- Modelled from the spec: QRCodeService.verifyStallQRToken's body is not
in the repository snapshot; per the source documentation a stall token is
verified by format (the `STALL_` marker) and then by database lookup, never
by signature.  The check is the six-character marker comparison a
`startsWith` performs. -/
def verifyStallQRToken (t : String) : Bool :=
  t.toList.take 6 == "STALL_".toList

/-- The token-resolution part of the scanStall controller: accept the token
if the format check passes and a stall row stores exactly this token —
pure existence lookup, no signature involved. -/
def scanStallResolve (db : DB) (t : String) : Option StallRow :=
  if verifyStallQRToken t then findStallByQRToken db t else none

/-- A concrete student row for the closed instances below: inside the
event, ranking not yet submitted, no feedback given. -/
def sampleStudent : StudentRow := ⟨1, 1, true, false, none, 0⟩

/-- A concrete stall row of school 1 with all counters zero. -/
def sampleStall (i : Nat) : StallRow := ⟨i, 1, "", 0, 0, 0, 0, 0⟩

/-- A concrete store: one student of school 1 and three stalls of school 1. -/
def sampleDB : DB :=
  ⟨[sampleStudent], [sampleStall 11, sampleStall 12, sampleStall 13], [], []⟩

/-- A concrete well-formed ranking request over sampleDB. -/
def sampleRankReq : RankRequest := ⟨1, [(11, 1), (12, 2), (13, 3)]⟩

/-- A concrete well-formed feedback request over sampleDB. -/
def sampleFeedbackReq : FeedbackRequest := ⟨1, some 11, some 4, none⟩

/-- A store like sampleDB in which stall 13 belongs to school 2, so ranking
it violates the own-school rule. -/
def crossDB : DB :=
  ⟨[sampleStudent], [sampleStall 11, sampleStall 12, ⟨13, 2, "", 0, 0, 0, 0, 0⟩],
   [], []⟩

/-- Unfolding one write statement. -/
theorem applyWrites_cons (w : DB → DB) (ws : List (DB → DB)) (db : DB) :
    applyWrites (w :: ws) db = applyWrites ws (w db) := rfl

/-- Splitting a statement list. -/
theorem applyWrites_append (l1 l2 : List (DB → DB)) (db : DB) :
    applyWrites (l1 ++ l2) db = applyWrites l2 (applyWrites l1 db) := by
  unfold applyWrites
  rw [List.foldl_append]

/-- The per-stall vote updates leave the students table untouched. -/
theorem applyWrites_voteUpdates_students (l : List (Nat × Nat)) (db : DB) :
    (applyWrites (l.map (fun p => updateStallVotes p.1 p.2)) db).students =
      db.students := by
  induction l generalizing db with
  | nil => rfl
  | cons p t ih =>
    rw [List.map_cons, applyWrites_cons, ih]
    rfl

/-- The students table after the ranking transaction: the submitting
student's row with the flag set and the category recorded, all other rows
unchanged. -/
theorem submitRankingTxn_students_map (req : RankRequest) (db : DB) :
    (submitRankingTxn req db).students =
      db.students.map (fun s =>
        if s.id == req.student_id then
          { s with has_completed_ranking := true,
                   selected_category := some "CATEGORY_2" }
        else s) := by
  unfold submitRankingTxn txnWrites
  rw [applyWrites_append, applyWrites_voteUpdates_students]
  rfl

/-- find? by id commutes with an id-preserving per-row update. -/
theorem find_map_ite (l : List StudentRow) (sid : Nat)
    (g : StudentRow → StudentRow) (hg : ∀ s, (g s).id = s.id) :
    (l.map (fun s => if s.id == sid then g s else s)).find?
        (fun s => s.id == sid) =
      (l.find? (fun s => s.id == sid)).map g := by
  induction l with
  | nil => rfl
  | cons a t ih =>
    by_cases h : a.id = sid
    · rw [List.map_cons, if_pos (show (a.id == sid) = true by simpa using h),
        List.find?_cons_of_pos _ (by simp [hg, h]),
        List.find?_cons_of_pos _ (by simp [h])]
      rfl
    · rw [List.map_cons, if_neg (show ¬(a.id == sid) = true by simpa using h),
        List.find?_cons_of_neg _ (by simp [h]),
        List.find?_cons_of_neg _ (by simp [h])]
      exact ih

/-- A ranking request whose structural checks pass, against a student whose
has_completed_ranking flag is already set, is rejected with AlreadySubmitted
and the store is unchanged. -/
theorem alreadySubmitted_of_flag (req : RankRequest) (db : DB)
    (stu : StudentRow) (h1 : checkRanks req = none)
    (h2 : findStudentById db req.student_id = some stu)
    (h3 : stu.has_completed_ranking = true) :
    submitSchoolRanking req db = (Sum.inl RankingError.AlreadySubmitted, db) := by
  simp [submitSchoolRanking, submitSchoolRankingValidate, h1, h2, h3]

/-- A ranking request that passes validation names an existing student
whose flag is still unset. -/
theorem validate_none_inversion (req : RankRequest) (db : DB)
    (h : submitSchoolRankingValidate req db = none) :
    checkRanks req = none ∧
    ∃ stu, findStudentById db req.student_id = some stu ∧
      stu.has_completed_ranking = false := by
  unfold submitSchoolRankingValidate at h
  cases hc : checkRanks req with
  | some e => rw [hc] at h; simp at h
  | none =>
    rw [hc] at h
    cases hf : findStudentById db req.student_id with
    | none => rw [hf] at h; simp at h
    | some stu =>
      rw [hf] at h
      by_cases hr : stu.has_completed_ranking
      · simp [hr] at h
      · exact ⟨rfl, stu, rfl, by simpa using hr⟩

/-- Claim C1: under the fault model — the request may die after any number
`k` of executed write statements — the store a ranking request leaves behind
is either exactly the pre-request store (rejection, or rollback of the
transaction) or exactly the store of the fully applied submission; partial
application, e.g. two of three stall counters incremented, is never an
observable outcome. -/
theorem submitRanking_atomic (req : RankRequest) (db : DB) (k : Nat) :
    (submitSchoolRankingFaulty req db k).2 = db ∨
    (submitSchoolRankingFaulty req db k).2 = (submitSchoolRanking req db).2 := by
  unfold submitSchoolRankingFaulty submitSchoolRanking
  cases h : submitSchoolRankingValidate req db with
  | some e => simp
  | none =>
    by_cases hk : k < (txnWrites req).length
    · simp [hk]
    · simp [hk]

/-- Claim C2, counterexample: the has_completed_ranking check runs before
BEGIN, not inside the transaction.  Both phases of the controller are shown
on a concrete store: validation of a request passes on the pre-state, the
transaction of an identical concurrent request then sets the flag, and
running the first request's transaction afterwards — at which point
has_completed_ranking is already true — still inserts its three ranking
rows (six rows total), instead of failing with AlreadySubmitted. -/
theorem ranking_check_before_txn_cex :
    submitSchoolRankingValidate sampleRankReq sampleDB = none ∧
    (findStudentById (submitRankingTxn sampleRankReq sampleDB) 1).map
        (fun s => s.has_completed_ranking) = some true ∧
    (submitRankingTxn sampleRankReq
        (submitRankingTxn sampleRankReq sampleDB)).rankings.length = 6 := by
  refine ⟨by decide, by decide, by decide⟩

/-- Claim C2 as amended: the flag check happens before the transaction
begins and is not held under a lock, but in the sequential (linearized)
execution the code realises, any participant whose has_completed_ranking is
already true when submitRanking is called fails with AlreadySubmitted and
the store — in particular every ranking row and vote counter — is left
untouched. -/
theorem ranking_alreadySubmitted_sequential (req : RankRequest) (db : DB)
    (stu : StudentRow) (h1 : checkRanks req = none)
    (h2 : findStudentById db req.student_id = some stu)
    (h3 : stu.has_completed_ranking = true) :
    submitSchoolRanking req db = (Sum.inl RankingError.AlreadySubmitted, db) :=
  alreadySubmitted_of_flag req db stu h1 h2 h3

/-- ranking_alreadySubmitted_sequential at a concrete input: the sample
request against a store whose student has already submitted. -/
theorem ranking_alreadySubmitted_sequential_witness :
    submitSchoolRanking sampleRankReq ⟨[⟨1, 1, true, true, none, 0⟩], [], [], []⟩ =
      (Sum.inl RankingError.AlreadySubmitted,
       ⟨[⟨1, 1, true, true, none, 0⟩], [], [], []⟩) :=
  ranking_alreadySubmitted_sequential sampleRankReq
    ⟨[⟨1, 1, true, true, none, 0⟩], [], [], []⟩
    ⟨1, 1, true, true, none, 0⟩ (by decide) (by decide) (by decide)

/-- The direction recorded at position `i` of `n` scans starting from flag
`b`: the parity of `i` decides between the start flag's action and its
negation's. -/
theorem scanDirections_getElem (n : Nat) : ∀ (b : Bool) (i : Nat), i < n →
    (scanDirections n b)[i]? =
      some (if i % 2 = 0 then scanAction b else scanAction (!b)) := by
  induction n with
  | zero => intro b i h; omega
  | succ m ih =>
    intro b i h
    cases i with
    | zero => simp [scanDirections]
    | succ j =>
      have hj : j < m := by omega
      have hrec := ih (processCheckInOut b) j hj
      rcases Nat.mod_two_eq_zero_or_one j with h2 | h2
      · have h3 : (j + 1) % 2 = 1 := by omega
        simp [processCheckInOut, h2] at hrec
        simp [scanDirections, processCheckInOut, h3, hrec]
      · have h3 : (j + 1) % 2 = 0 := by omega
        simp [processCheckInOut, h2] at hrec
        simp [scanDirections, processCheckInOut, h3, hrec]

/-- Claim C3: over any sequence of `n` scans of the same participant with
no intervening reset, starting from is_inside_event = false, the recorded
directions alternate ENTRY, EXIT, ENTRY, EXIT, ...: the scan at an even
position records ENTRY (and sets the flag), the scan at an odd position
records EXIT (and clears it). -/
theorem scan_directions_alternate (n i : Nat) (h : i < n) :
    (scanDirections n false)[i]? =
      some (if i % 2 = 0 then Direction.ENTRY else Direction.EXIT) := by
  have hgen := scanDirections_getElem n false i h
  simpa [scanAction] using hgen

/-- scan_directions_alternate at a concrete input: the second of four scans
records EXIT. -/
theorem scan_directions_alternate_witness :
    1 < 4 ∧ (scanDirections 4 false)[1]? =
      some (if 1 % 2 = 0 then Direction.ENTRY else Direction.EXIT) :=
  ⟨by decide, scan_directions_alternate 4 1 (by decide)⟩

/-- Claim C4 is a code bug; this theorem evaluates the embedded code at the
failing input.  A stall with all counters zero receives a rank-1 vote by a
successful submitRanking: its rank_1_votes becomes 1, but its stored
weighted_score stays 0 — not 5·1 + 3·0 + 1·0 = 5 — because PostgreSQL
evaluates the SET clause `weighted_score = rank_1_votes*5 + ...` against
the pre-update row. -/
theorem weighted_score_stale_at_failing_input :
    (findStallById (submitSchoolRanking sampleRankReq sampleDB).2 11).map
        (fun s => (s.rank_1_votes, s.weighted_score)) = some (1, 0) ∧
    (0 : Nat) ≠ 5 * 1 + 3 * 0 + 1 * 0 := by
  refine ⟨by decide, by decide⟩

/-- The students table after submitFeedback's three writes: the submitting
student's stored feedback counter bumped, all else unchanged. -/
theorem feedbackWrites_students (req : FeedbackRequest) (db : DB) :
    (applyWrites (feedbackWrites req) db).students =
      db.students.map (fun s =>
        if s.id == req.student_id then
          { s with feedbacks_given := s.feedbacks_given + 1 }
        else s) := rfl

/-- The stalls table after submitFeedback's three writes: the reviewed
stall's total_feedback_count bumped, all else unchanged. -/
theorem feedbackWrites_stalls (req : FeedbackRequest) (db : DB) :
    (applyWrites (feedbackWrites req) db).stalls =
      db.stalls.map (fun s =>
        if s.id == req.stall_id.getD 0 then
          { s with total_feedback_count := s.total_feedback_count + 1 }
        else s) := rfl

/-- The feedbacks table after submitFeedback's three writes: the created
row appended. -/
theorem feedbackWrites_feedbacks (req : FeedbackRequest) (db : DB) :
    (applyWrites (feedbackWrites req) db).feedbacks =
      db.feedbacks ++ [feedbackRowOf req] := rfl

/-- find? by id commutes with an id-preserving per-row update
(stalls table version). -/
theorem find_map_ite_stall (l : List StallRow) (stid : Nat)
    (g : StallRow → StallRow) (hg : ∀ s, (g s).id = s.id) :
    (l.map (fun s => if s.id == stid then g s else s)).find?
        (fun s => s.id == stid) =
      (l.find? (fun s => s.id == stid)).map g := by
  induction l with
  | nil => rfl
  | cons a t ih =>
    by_cases h : a.id = stid
    · rw [List.map_cons, if_pos (show (a.id == stid) = true by simpa using h),
        List.find?_cons_of_pos _ (by simp [hg, h]),
        List.find?_cons_of_pos _ (by simp [h])]
      rfl
    · rw [List.map_cons, if_neg (show ¬(a.id == stid) = true by simpa using h),
        List.find?_cons_of_neg _ (by simp [h]),
        List.find?_cons_of_neg _ (by simp [h])]
      exact ih

/-- find? skips a prefix in which it finds nothing. -/
theorem find_append_of_none {α : Type} (p : α → Bool) (l1 l2 : List α)
    (h : l1.find? p = none) : (l1 ++ l2).find? p = l2.find? p := by
  induction l1 with
  | nil => rfl
  | cons a t ih =>
    rw [List.find?_cons] at h
    cases hp : p a with
    | true => rw [hp] at h; exact absurd h (by simp)
    | false =>
      rw [hp] at h
      rw [List.cons_append, List.find?_cons, hp]
      exact ih h

/-- The quota counter after a successful feedback write is one more than
before. -/
theorem countByStudent_after (req : FeedbackRequest) (db : DB) :
    countByStudent (applyWrites (feedbackWrites req) db) req.student_id =
      countByStudent db req.student_id + 1 := by
  unfold countByStudent
  rw [show (applyWrites (feedbackWrites req) db).feedbacks =
      db.feedbacks ++ [feedbackRowOf req] from rfl]
  rw [List.filter_append]
  simp [feedbackRowOf]

/-- A feedback request that passes validation has a present, non-zero
stall_id and rating, an in-range rating, an existing checked-in student,
remaining quota, an existing stall and no prior review of that stall. -/
theorem feedbackValidate_none_inversion (req : FeedbackRequest) (db : DB)
    (h : submitFeedbackValidate req db = none) :
    req.stall_id.getD 0 ≠ 0 ∧ req.rating.getD 0 ≠ 0 ∧
    ¬(req.rating.getD 0 < 1 ∨ 5 < req.rating.getD 0) ∧
    (∃ stu, findStudentById db req.student_id = some stu ∧
       stu.is_inside_event = true) ∧
    countByStudent db req.student_id < 200 ∧
    (∃ st, findStallById db (req.stall_id.getD 0) = some st) ∧
    findFeedback db req.student_id (req.stall_id.getD 0) = none := by
  by_cases h1 : req.stall_id.getD 0 = 0 ∨ req.rating.getD 0 = 0
  · simp [submitFeedbackValidate, h1] at h
  · by_cases h2 : req.rating.getD 0 < 1 ∨ 5 < req.rating.getD 0
    · simp [submitFeedbackValidate, h1, h2] at h
    · cases hf : findStudentById db req.student_id with
      | none => simp [submitFeedbackValidate, h1, h2, hf] at h
      | some stu =>
        by_cases hin : stu.is_inside_event
        · by_cases hq : 200 ≤ countByStudent db req.student_id
          · simp [submitFeedbackValidate, h1, h2, hf, hin, hq] at h
          · cases hs : findStallById db (req.stall_id.getD 0) with
            | none =>
              simp [submitFeedbackValidate, h1, h2, hf, hin, hq, hs] at h
            | some st =>
              cases hfb : findFeedback db req.student_id (req.stall_id.getD 0) with
              | some old =>
                simp [submitFeedbackValidate, h1, h2, hf, hin, hq, hs, hfb] at h
              | none =>
                push_neg at h1
                exact ⟨h1.1, h1.2, h2, ⟨stu, rfl, by simpa using hin⟩,
                  by omega, ⟨st, rfl⟩, rfl⟩
        · simp [submitFeedbackValidate, h1, h2, hf, hin] at h

/-- A successful submitFeedback call passed validation, returned exactly
the row it created, and left the store of the three writes. -/
theorem submitFeedback_success_inversion (req : FeedbackRequest) (db : DB)
    (fb : FeedbackRow) (h : (submitFeedback req db).1 = Sum.inr fb) :
    submitFeedbackValidate req db = none ∧ fb = feedbackRowOf req ∧
    (submitFeedback req db).2 = applyWrites (feedbackWrites req) db := by
  unfold submitFeedback at h ⊢
  cases hv : submitFeedbackValidate req db with
  | some e => rw [hv] at h; simp at h
  | none =>
    rw [hv] at h
    simp at h
    exact ⟨rfl, h.symm, rfl⟩

/-- Claim C5: submitRanking's rejection cases.  Ranks [1,1,2] fail with
InvalidRankSet; a valid rank set over a repeated stall_id fails with
DuplicateStall; when all three stalls exist but one is outside the
participant's own school the call fails with CrossSchoolStall; and after a
successful submission an identical second call fails with AlreadySubmitted
and leaves the store — in particular every vote counter — unchanged. -/
theorem submitRanking_error_cases :
    (∀ (sid a b c : Nat) (db : DB),
      (submitSchoolRanking ⟨sid, [(a, 1), (b, 1), (c, 2)]⟩ db).1 =
        Sum.inl RankingError.InvalidRankSet) ∧
    (∀ (req : RankRequest) (db : DB), req.rankings.length = 3 →
      sortNat (req.rankings.map Prod.snd) = [1, 2, 3] →
      (dedupNat (req.rankings.map Prod.fst)).length ≠ 3 →
      (submitSchoolRanking req db).1 = Sum.inl RankingError.DuplicateStall) ∧
    (∀ (req : RankRequest) (db : DB) (stu : StudentRow),
      checkRanks req = none →
      findStudentById db req.student_id = some stu →
      stu.has_completed_ranking = false →
      (stallsToRank req db).length = 3 →
      (stallsToRank req db).any (fun s => s.school_id != stu.school_id) = true →
      (submitSchoolRanking req db).1 = Sum.inl RankingError.CrossSchoolStall) ∧
    (∀ (req : RankRequest) (db : DB),
      (submitSchoolRanking req db).1 = Sum.inr () →
      submitSchoolRanking req (submitSchoolRanking req db).2 =
        (Sum.inl RankingError.AlreadySubmitted,
         (submitSchoolRanking req db).2)) := by
  refine ⟨?_, ?_, ?_, ?_⟩
  · intro sid a b c db
    rfl
  · intro req db h1 h2 h3
    simp [submitSchoolRanking, submitSchoolRankingValidate, checkRanks,
      h1, h2, h3]
  · intro req db stu h1 h2 h3 h4 h5
    simp [submitSchoolRanking, submitSchoolRankingValidate,
      h1, h2, h3, h4, h5]
  · intro req db hsucc
    have hv : submitSchoolRankingValidate req db = none := by
      cases hv2 : submitSchoolRankingValidate req db with
      | some e => simp [submitSchoolRanking, hv2] at hsucc
      | none => rfl
    obtain ⟨hc, stu, hf, hflag⟩ := validate_none_inversion req db hv
    have hdb2 : (submitSchoolRanking req db).2 = submitRankingTxn req db := by
      simp [submitSchoolRanking, hv]
    have hfind2 : findStudentById (submitRankingTxn req db)
        req.student_id =
        some { stu with has_completed_ranking := true,
                        selected_category := some "CATEGORY_2" } := by
      unfold findStudentById
      rw [submitRankingTxn_students_map,
        find_map_ite db.students req.student_id
          (fun s => { s with has_completed_ranking := true,
                             selected_category := some "CATEGORY_2" })
          (fun s => rfl)]
      unfold findStudentById at hf
      rw [hf]
      rfl
    rw [hdb2]
    exact alreadySubmitted_of_flag req _ _ hc hfind2 rfl

/-- submitRanking_error_cases at concrete inputs, one per rejection case,
over the sample store. -/
theorem submitRanking_error_cases_witness :
    (submitSchoolRanking ⟨1, [(11, 1), (12, 1), (13, 2)]⟩ sampleDB).1 =
      Sum.inl RankingError.InvalidRankSet ∧
    (submitSchoolRanking ⟨1, [(11, 1), (11, 2), (13, 3)]⟩ sampleDB).1 =
      Sum.inl RankingError.DuplicateStall ∧
    (submitSchoolRanking sampleRankReq crossDB).1 =
      Sum.inl RankingError.CrossSchoolStall ∧
    submitSchoolRanking sampleRankReq
        (submitSchoolRanking sampleRankReq sampleDB).2 =
      (Sum.inl RankingError.AlreadySubmitted,
       (submitSchoolRanking sampleRankReq sampleDB).2) :=
  ⟨submitRanking_error_cases.1 1 11 12 13 sampleDB,
   submitRanking_error_cases.2.1 ⟨1, [(11, 1), (11, 2), (13, 3)]⟩ sampleDB
     (by decide) (by decide) (by decide),
   submitRanking_error_cases.2.2.1 sampleRankReq crossDB sampleStudent
     (by decide) (by decide) (by decide) (by decide) (by decide),
   submitRanking_error_cases.2.2.2 sampleRankReq sampleDB (by decide)⟩

/-- Claim C6, counterexample: a rating of 0 — which is not in 1..5 — with
every other condition satisfied (student checked in, stall exists, quota
free, no prior review) is rejected with the required-fields validation
error, not with OutOfRange: the controller's falsiness check `!rating`
swallows 0 before the range check runs. -/
theorem feedback_zero_rating_cex :
    (submitFeedback ⟨1, some 11, some 0, none⟩ sampleDB).1 =
      Sum.inl FeedbackError.ValidationRequired ∧
    (submitFeedback ⟨1, some 11, some 0, none⟩ sampleDB).1 ≠
      Sum.inl FeedbackError.OutOfRange := by
  refine ⟨by decide, by decide⟩

/-- Claim C6 as amended: submitFeedback returns the created Feedback Record
on success; a second submission for the same (participant, stall) pair
fails with AlreadyReviewed provided the quota check that precedes the
duplicate check does not fire; QuotaExceeded at 200 or more prior
feedbacks; OutOfRange for a present, non-zero rating outside 1..5 (a zero
or absent rating instead fails the required-fields validation); and
NotCheckedIn when is_inside_event is false at submission time. -/
theorem submitFeedback_error_cases :
    (∀ (req : FeedbackRequest) (db : DB) (fb : FeedbackRow),
      (submitFeedback req db).1 = Sum.inr fb →
      fb = feedbackRowOf req ∧ fb ∈ (submitFeedback req db).2.feedbacks) ∧
    (∀ (req : FeedbackRequest) (db : DB) (fb : FeedbackRow),
      (submitFeedback req db).1 = Sum.inr fb →
      countByStudent db req.student_id + 1 < 200 →
      (submitFeedback req (submitFeedback req db).2).1 =
        Sum.inl FeedbackError.AlreadyReviewed) ∧
    (∀ (req : FeedbackRequest) (db : DB) (stu : StudentRow),
      req.stall_id.getD 0 ≠ 0 → req.rating.getD 0 ≠ 0 →
      ¬(req.rating.getD 0 < 1 ∨ 5 < req.rating.getD 0) →
      findStudentById db req.student_id = some stu →
      stu.is_inside_event = true →
      200 ≤ countByStudent db req.student_id →
      (submitFeedback req db).1 = Sum.inl FeedbackError.QuotaExceeded) ∧
    (∀ (req : FeedbackRequest) (db : DB),
      req.stall_id.getD 0 ≠ 0 → req.rating.getD 0 ≠ 0 →
      (req.rating.getD 0 < 1 ∨ 5 < req.rating.getD 0) →
      (submitFeedback req db).1 = Sum.inl FeedbackError.OutOfRange) ∧
    (∀ (req : FeedbackRequest) (db : DB) (stu : StudentRow),
      req.stall_id.getD 0 ≠ 0 → req.rating.getD 0 ≠ 0 →
      ¬(req.rating.getD 0 < 1 ∨ 5 < req.rating.getD 0) →
      findStudentById db req.student_id = some stu →
      stu.is_inside_event = false →
      (submitFeedback req db).1 = Sum.inl FeedbackError.NotCheckedIn) := by
  refine ⟨?_, ?_, ?_, ?_, ?_⟩
  · intro req db fb hsucc
    obtain ⟨hv, hfb, hdb2⟩ := submitFeedback_success_inversion req db fb hsucc
    refine ⟨hfb, ?_⟩
    rw [hdb2, feedbackWrites_feedbacks, hfb]
    simp
  · intro req db fb hsucc hquota
    obtain ⟨hv, hfb, hdb2⟩ := submitFeedback_success_inversion req db fb hsucc
    obtain ⟨hst, hrt, hrange, ⟨stu, hstu, hin⟩, hcount, ⟨st, hstall⟩, hnofb⟩ :=
      feedbackValidate_none_inversion req db hv
    rw [hdb2]
    have hfind2 : findStudentById (applyWrites (feedbackWrites req) db)
        req.student_id =
        some { stu with feedbacks_given := stu.feedbacks_given + 1 } := by
      unfold findStudentById
      rw [feedbackWrites_students,
        find_map_ite db.students req.student_id
          (fun s => { s with feedbacks_given := s.feedbacks_given + 1 })
          (fun s => rfl)]
      unfold findStudentById at hstu
      rw [hstu]
      rfl
    have hfindst2 : findStallById (applyWrites (feedbackWrites req) db)
        (req.stall_id.getD 0) =
        some { st with total_feedback_count := st.total_feedback_count + 1 } := by
      unfold findStallById
      rw [feedbackWrites_stalls,
        find_map_ite_stall db.stalls (req.stall_id.getD 0)
          (fun s => { s with total_feedback_count := s.total_feedback_count + 1 })
          (fun s => rfl)]
      unfold findStallById at hstall
      rw [hstall]
      rfl
    have hfb2 : findFeedback (applyWrites (feedbackWrites req) db)
        req.student_id (req.stall_id.getD 0) = some (feedbackRowOf req) := by
      unfold findFeedback
      rw [feedbackWrites_feedbacks]
      unfold findFeedback at hnofb
      rw [find_append_of_none _ _ _ hnofb]
      simp [feedbackRowOf]
    have hq2 : ¬(200 ≤ countByStudent (applyWrites (feedbackWrites req) db)
        req.student_id) := by
      rw [countByStudent_after]
      omega
    simp [submitFeedback, submitFeedbackValidate, hst, hrt, hrange,
      hfind2, hin, hq2, hfindst2, hfb2]
  · intro req db stu hst hrt hrange hf hin hq
    simp [submitFeedback, submitFeedbackValidate, hst, hrt, hrange, hf,
      hin, hq]
  · intro req db hst hrt hrange
    simp [submitFeedback, submitFeedbackValidate, hst, hrt, hrange]
  · intro req db stu hst hrt hrange hf hin
    simp [submitFeedback, submitFeedbackValidate, hst, hrt, hrange, hf, hin]

/-- submitFeedback_error_cases at concrete inputs over the sample store:
the success shape, the second-submission rejection, the quota rejection at
200 prior feedbacks, the range rejection at rating 6, and the
not-checked-in rejection. -/
theorem submitFeedback_error_cases_witness :
    ((⟨1, 11, 4, none⟩ : FeedbackRow) = feedbackRowOf sampleFeedbackReq ∧
      (⟨1, 11, 4, none⟩ : FeedbackRow) ∈
        (submitFeedback sampleFeedbackReq sampleDB).2.feedbacks) ∧
    (submitFeedback sampleFeedbackReq
        (submitFeedback sampleFeedbackReq sampleDB).2).1 =
      Sum.inl FeedbackError.AlreadyReviewed ∧
    (submitFeedback ⟨1, some 11, some 6, none⟩ sampleDB).1 =
      Sum.inl FeedbackError.OutOfRange ∧
    (submitFeedback sampleFeedbackReq
        ⟨[⟨1, 1, false, false, none, 0⟩], [sampleStall 11], [], []⟩).1 =
      Sum.inl FeedbackError.NotCheckedIn :=
  ⟨submitFeedback_error_cases.1 sampleFeedbackReq sampleDB ⟨1, 11, 4, none⟩
     (by decide),
   submitFeedback_error_cases.2.1 sampleFeedbackReq sampleDB ⟨1, 11, 4, none⟩
     (by decide) (by decide),
   submitFeedback_error_cases.2.2.2.1 ⟨1, some 11, some 6, none⟩ sampleDB
     (by decide) (by decide) (by decide),
   submitFeedback_error_cases.2.2.2.2 sampleFeedbackReq
     ⟨[⟨1, 1, false, false, none, 0⟩], [sampleStall 11], [], []⟩
     ⟨1, 1, false, false, none, 0⟩
     (by decide) (by decide) (by decide) (by decide) (by decide)⟩

/-- Claim C7, counterexample: submitFeedback's record insert and counter
increments are separate auto-committed statements with no surrounding
transaction, so the state after the first statement alone — the Feedback
Record present while the participant's stored feedback counter is still 0 —
is an observable store. -/
theorem feedback_partial_write_cex :
    (submitFeedbackFaulty sampleFeedbackReq sampleDB 1).feedbacks =
      [⟨1, 11, 4, none⟩] ∧
    (findStudentById (submitFeedbackFaulty sampleFeedbackReq sampleDB 1) 1).map
        (fun s => s.feedbacks_given) = some 0 := by
  refine ⟨by decide, by decide⟩

/-- Claim C7 as amended: the record insert, the participant counter
increment and the stall counter increment are three separate statements
outside any transaction; when the call completes successfully all three are
applied — the record is in the store and both counters are exactly one
higher — but a fault between the statements can leave the record without
the counter increments, as the counterexample shows. -/
theorem submitFeedback_success_writes (req : FeedbackRequest) (db : DB)
    (fb : FeedbackRow) (hsucc : (submitFeedback req db).1 = Sum.inr fb) :
    fb ∈ (submitFeedback req db).2.feedbacks ∧
    ((findStudentById (submitFeedback req db).2 req.student_id).map
        (fun s => s.feedbacks_given) =
      (findStudentById db req.student_id).map
        (fun s => s.feedbacks_given + 1)) ∧
    ((findStallById (submitFeedback req db).2 (req.stall_id.getD 0)).map
        (fun s => s.total_feedback_count) =
      (findStallById db (req.stall_id.getD 0)).map
        (fun s => s.total_feedback_count + 1)) := by
  obtain ⟨hv, hfb, hdb2⟩ := submitFeedback_success_inversion req db fb hsucc
  refine ⟨?_, ?_, ?_⟩
  · rw [hdb2, feedbackWrites_feedbacks, hfb]
    simp
  · rw [hdb2]
    unfold findStudentById
    rw [feedbackWrites_students,
      find_map_ite db.students req.student_id
        (fun s => { s with feedbacks_given := s.feedbacks_given + 1 })
        (fun s => rfl)]
    cases db.students.find? (fun s => s.id == req.student_id) with
    | none => rfl
    | some s => rfl
  · rw [hdb2]
    unfold findStallById
    rw [feedbackWrites_stalls,
      find_map_ite_stall db.stalls (req.stall_id.getD 0)
        (fun s => { s with total_feedback_count := s.total_feedback_count + 1 })
        (fun s => rfl)]
    cases db.stalls.find? (fun s => s.id == req.stall_id.getD 0) with
    | none => rfl
    | some s => rfl

/-- submitFeedback_success_writes at a concrete input: the sample feedback
request against the sample store. -/
theorem submitFeedback_success_writes_witness :
    (⟨1, 11, 4, none⟩ : FeedbackRow) ∈
      (submitFeedback sampleFeedbackReq sampleDB).2.feedbacks ∧
    ((findStudentById (submitFeedback sampleFeedbackReq sampleDB).2 1).map
        (fun s => s.feedbacks_given) =
      (findStudentById sampleDB 1).map (fun s => s.feedbacks_given + 1)) ∧
    ((findStallById (submitFeedback sampleFeedbackReq sampleDB).2 11).map
        (fun s => s.total_feedback_count) =
      (findStallById sampleDB 11).map
        (fun s => s.total_feedback_count + 1)) :=
  submitFeedback_success_writes sampleFeedbackReq sampleDB ⟨1, 11, 4, none⟩
    (by decide)

/-- Claim C10: the controller's falsy check treats a missing and a zero
rating alike — both fail with the required-fields validation error before
any other check can run — and the OutOfRange rejection is reachable only
for a present, non-zero rating outside 1..5. -/
theorem feedback_falsy_rating_precedence :
    (∀ (req : FeedbackRequest) (db : DB),
      req.rating = none ∨ req.rating = some 0 →
      (submitFeedback req db).1 = Sum.inl FeedbackError.ValidationRequired) ∧
    (∀ (req : FeedbackRequest) (db : DB),
      (submitFeedback req db).1 = Sum.inl FeedbackError.OutOfRange →
      ∃ v, req.rating = some v ∧ v ≠ 0 ∧ (v < 1 ∨ 5 < v)) := by
  constructor
  · intro req db h
    have hz : req.rating.getD 0 = 0 := by
      cases h with
      | inl h => rw [h]; rfl
      | inr h => rw [h]; rfl
    simp [submitFeedback, submitFeedbackValidate, hz]
  · intro req db h
    have hv : submitFeedbackValidate req db =
        some FeedbackError.OutOfRange := by
      unfold submitFeedback at h
      cases hv2 : submitFeedbackValidate req db with
      | some e => rw [hv2] at h; simp at h; rw [h]
      | none => rw [hv2] at h; simp at h
    by_cases h1 : req.stall_id.getD 0 = 0 ∨ req.rating.getD 0 = 0
    · simp [submitFeedbackValidate, h1] at hv
    · by_cases h2 : req.rating.getD 0 < 1 ∨ 5 < req.rating.getD 0
      · push_neg at h1
        cases hr : req.rating with
        | none =>
          rw [hr] at h1
          simp at h1
        | some v =>
          refine ⟨v, rfl, ?_, ?_⟩
          · have hne := h1.2
            rw [hr] at hne
            simpa using hne
          · rw [hr] at h2
            simpa using h2
      · cases hf : findStudentById db req.student_id with
        | none => simp [submitFeedbackValidate, h1, h2, hf] at hv
        | some stu =>
          by_cases hin : stu.is_inside_event
          · by_cases hq : 200 ≤ countByStudent db req.student_id
            · simp [submitFeedbackValidate, h1, h2, hf, hin, hq] at hv
            · cases hs : findStallById db (req.stall_id.getD 0) with
              | none =>
                simp [submitFeedbackValidate, h1, h2, hf, hin, hq, hs] at hv
              | some st =>
                cases hfb : findFeedback db req.student_id
                    (req.stall_id.getD 0) with
                | some old =>
                  simp [submitFeedbackValidate, h1, h2, hf, hin, hq, hs,
                    hfb] at hv
                | none =>
                  simp [submitFeedbackValidate, h1, h2, hf, hin, hq, hs,
                    hfb] at hv
          · simp [submitFeedbackValidate, h1, h2, hf, hin] at hv

/-- feedback_falsy_rating_precedence at a concrete input: rating 0 over the
sample store falls into the required-fields error. -/
theorem feedback_falsy_rating_precedence_witness :
    (submitFeedback ⟨1, some 11, some 0, some "ok"⟩ sampleDB).1 =
      Sum.inl FeedbackError.ValidationRequired :=
  feedback_falsy_rating_precedence.1 ⟨1, some 11, some 0, some "ok"⟩ sampleDB
    (Or.inr rfl)

/-- Claim C8: the rotating participant token round-trips — verifying a
token at the instant it was generated yields the same subject — and more
generally a token generated at window w verifies exactly at instants whose
window lies in [w, w + GRACE_PERIOD_WINDOWS]; an instant whose window
precedes the token's embedded window (a clock-ahead token) is rejected as
FutureWindow. -/
theorem participant_token_roundtrip_grace :
    (∀ (secret : Nat) (reg : String) (nonce now : Nat),
      verifyStudentQRToken secret
          (generateRotatingStudentToken secret reg nonce now) now =
        Sum.inr reg) ∧
    (∀ (secret : Nat) (reg : String) (nonce now now2 : Nat),
      verifyStudentQRToken secret
          (generateRotatingStudentToken secret reg nonce now) now2 =
        Sum.inr reg ↔
      (windowOf now ≤ windowOf now2 ∧
       windowOf now2 ≤ windowOf now + GRACE_PERIOD_WINDOWS)) ∧
    (∀ (secret : Nat) (reg : String) (nonce now now2 : Nat),
      windowOf now2 < windowOf now →
      verifyStudentQRToken secret
          (generateRotatingStudentToken secret reg nonce now) now2 =
        Sum.inl TokenError.FutureWindow) := by
  refine ⟨?_, ?_, ?_⟩
  · intro secret reg nonce now
    have h3 : ¬(windowOf now + GRACE_PERIOD_WINDOWS < windowOf now) := by
      omega
    simp [verifyStudentQRToken, generateRotatingStudentToken, h3]
  · intro secret reg nonce now now2
    constructor
    · intro h
      by_cases hfut : windowOf now2 < windowOf now
      · simp [verifyStudentQRToken, generateRotatingStudentToken, hfut] at h
      · by_cases hexp : windowOf now + GRACE_PERIOD_WINDOWS < windowOf now2
        · simp [verifyStudentQRToken, generateRotatingStudentToken,
            hfut, hexp] at h
        · omega
    · intro h
      have h1 : ¬(windowOf now2 < windowOf now) := by omega
      have h2 : ¬(windowOf now + GRACE_PERIOD_WINDOWS < windowOf now2) := by
        omega
      simp [verifyStudentQRToken, generateRotatingStudentToken, h1, h2]
  · intro secret reg nonce now now2 h
    simp [verifyStudentQRToken, generateRotatingStudentToken, h]

/-- participant_token_roundtrip_grace at concrete inputs: a round-trip at
second 45 (window 1), and rejection of a window-3 token by a verifier at
window 0. -/
theorem participant_token_roundtrip_grace_witness :
    verifyStudentQRToken 7
        (generateRotatingStudentToken 7 "2024SGTU10001" 3 45) 45 =
      Sum.inr "2024SGTU10001" ∧
    verifyStudentQRToken 7
        (generateRotatingStudentToken 7 "2024SGTU10001" 3 90) 0 =
      Sum.inl TokenError.FutureWindow :=
  ⟨participant_token_roundtrip_grace.1 7 "2024SGTU10001" 3 45,
   participant_token_roundtrip_grace.2.2 7 "2024SGTU10001" 3 90 0 (by decide)⟩

/-- The character content of a generated stall token: the STALL marker, the
natural key, the mint timestamp and the random suffix, underscore
delimited — no field depends on a secret. -/
theorem generateStallQRToken_data (sn : String) (ms : Nat) (r6 : String) :
    (generateStallQRToken sn ms r6).toList =
      "STALL_".toList ++ (sn.toList ++ ("_".toList ++
        ((Nat.repr ms).toList ++ ("_".toList ++ r6.toList)))) := by
  simp [generateStallQRToken, String.toList]

/-- Claim C9: a stall token is the plain delimited string
STALL_subject_epochms_random6 — its characters decompose into exactly those
underscore-separated fields, with no signature field — every generated
token passes the format check, and the scanStall token resolution accepts a
token exactly when the format marker is present and a stall row stores that
very token: pure existence lookup, no signature verification. -/
theorem stall_token_format_and_lookup :
    (∀ (sn : String) (ms : Nat) (r6 : String),
      (generateStallQRToken sn ms r6).toList =
        "STALL_".toList ++ sn.toList ++ "_".toList ++
          (Nat.repr ms).toList ++ "_".toList ++ r6.toList) ∧
    (∀ (sn : String) (ms : Nat) (r6 : String),
      verifyStallQRToken (generateStallQRToken sn ms r6) = true) ∧
    (∀ (db : DB) (t : String) (s : StallRow),
      scanStallResolve db t = some s ↔
        (verifyStallQRToken t = true ∧ findStallByQRToken db t = some s)) := by
  refine ⟨?_, ?_, ?_⟩
  · intro sn ms r6
    rw [generateStallQRToken_data]
    simp [List.append_assoc]
  · intro sn ms r6
    unfold verifyStallQRToken
    rw [generateStallQRToken_data]
    rw [show (6 : Nat) = ("STALL_".toList).length from by decide]
    rw [List.take_left]
    simp
  · intro db t s
    unfold scanStallResolve
    by_cases h : verifyStallQRToken t = true
    · simp [h]
    · simp [h]

end SGTU
